import Mathlib

/-!
Shallow embedding of the GenomeForge desktop command layer
(`src/apps/desktop-windows/src-tauri/src/commands.rs`).

The Rust commands are pure apart from two effects, both made explicit here:
`parse_genome_file` calls `path.exists()` (modelled by the `fileExists`
field of `GenomeFile`) and `detect_file_type` inspects only the path, never
the file's bytes (so `GenomeFile.lines` carries the content the Rust code
could have read, and the embedded detector is a function of the name alone,
exactly as in the source). Paths are modelled by their final component
(the file name), which is all `Path::extension` / `Path::file_stem` use.
-/

namespace GenomeForge

/-- Lowercasing as Rust's `str::to_lowercase` acts on the ASCII file
extensions compared in `detect_file_type`: char-by-char lowercase. -/
def lowerString (s : String) : String :=
  String.mk (s.data.map Char.toLower)

/-- Does the first list lead the second (element-wise equality)?
Helper for the suffix test below. -/
def revLeadMatch : List Char → List Char → Bool
  | [], _ => true
  | _ :: _, [] => false
  | a :: as, b :: bs => (a == b) && revLeadMatch as bs

/-- Rust's `str::ends_with` for string patterns: the pattern's characters,
read from the end, match the end of `s`. -/
def strEndsWith (s post : String) : Bool :=
  revLeadMatch post.data.reverse s.data.reverse

/-- Split a character list around its last dot: `some (before, after)`
when a dot occurs, preferring the rightmost one. -/
def lastDotSplit : List Char → Option (List Char × List Char)
  | [] => none
  | c :: cs =>
    match lastDotSplit cs with
    | some (b, a) => some (c :: b, a)
    | none => if c = '.' then some ([], cs) else none

/-- Rust's `split_file_at_dot` on a file name, yielding
(`file_stem`, `extension`): no dot, a lone leading dot, or the special
name `..` give no extension; otherwise the name splits at the last dot. -/
def splitFileAtDot (name : String) : String × Option String :=
  if name = ".." then (name, none)
  else
    match lastDotSplit name.data with
    | none => (name, none)
    | some ([], _) => (name, none)
    | some (b, a) => (String.mk b, some (String.mk a))

/-- The body of `detect_file_type` (commands.rs:236-261) after the path has
been reduced to its lowercased extension and its file stem: `vcf` and `txt`
classify by extension alone, `gz` consults `stem.ends_with(".vcf")`
(a case-sensitive comparison in the source), every other extension is
rejected with the `Unsupported file type` error. -/
def classifyExt (ext stem : String) : Except String String :=
  if lowerString ext = "vcf" then Except.ok "vcf"
  else if lowerString ext = "txt" then Except.ok "23andme"
  else if lowerString ext = "gz" then
    if strEndsWith stem ".vcf" then Except.ok "vcf" else Except.ok "23andme"
  else Except.error ("Unsupported file type: " ++ lowerString ext)

/-- `detect_file_type` (commands.rs:236-261): a function of the path's file
name only — `path.extension()` lowercased, `path.file_stem()` for the `gz`
branch; a missing extension becomes `""` via `unwrap_or("")`. -/
def detect_file_type (fileName : String) : Except String String :=
  classifyExt ((splitFileAtDot fileName).2.getD "") (splitFileAtDot fileName).1

/-- An input file as the command layer can observe it: its name (final path
component), its content line by line, and whether `path.exists()` holds. -/
structure GenomeFile where
  name : String
  lines : List String
  fileExists : Bool

/-- `detect_file_type` applied to a file: the Rust function receives only
the path, so the result is `detect_file_type` of the name — the content
(`lines`) is never read. -/
def detect_file_type_file (f : GenomeFile) : Except String String :=
  detect_file_type f.name

/-- `ParseResult` (commands.rs:19-25). -/
structure ParseResult where
  success : Bool
  variant_count : Nat
  file_type : String
  error : Option String

/-- `parse_genome_file` (commands.rs:117-135): missing file → the error
`"File not found"`; then `detect_file_type` with its error propagated by
`?`; then the placeholder `ParseResult` with `variant_count: 0`. -/
def parse_genome_file (f : GenomeFile) : Except String ParseResult :=
  if f.fileExists = false then Except.error "File not found"
  else
    match detect_file_type f.name with
    | Except.error e => Except.error e
    | Except.ok file_type =>
      Except.ok { success := true, variant_count := 0, file_type := file_type, error := none }

/-- `ClinicalFinding` (commands.rs:36-44): a plain record with optional
`chromosome` and `position` and no validating constructor anywhere in the
source. -/
structure ClinicalFinding where
  rsid : String
  gene : Option String
  condition : String
  significance : String
  chromosome : Option String
  position : Option Nat

/-- `DrugResponse` (commands.rs:46-53). -/
structure DrugResponse where
  rsid : String
  gene : String
  drug : String
  response : String
  recommendation : String

/-- `TraitAssociation` (commands.rs:55-62); `confidence` is an `f64` the
placeholder never produces, carried here as an inert `Float` field. -/
structure TraitAssociation where
  rsid : String
  trait_name : String
  category : String
  effect : String
  confidence : Float

/-- `AnalysisSummary` (commands.rs:64-72). -/
structure AnalysisSummary where
  total_variants : Nat
  analyzed_variants : Nat
  clinical_count : Nat
  drug_count : Nat
  trait_count : Nat
  actionable_findings : Nat

/-- `AnalysisResultData` (commands.rs:28-34). -/
structure AnalysisResultData where
  clinical_findings : List ClinicalFinding
  drug_responses : List DrugResponse
  trait_associations : List TraitAssociation
  summary : AnalysisSummary

/-- `analyze_variants` (commands.rs:139-155): the placeholder returns
`Ok` with three empty finding lists and a summary echoing the input
`variant_count` as `total_variants` and zero everywhere else. -/
def analyze_variants (variant_count : Nat) : Except String AnalysisResultData :=
  Except.ok
    { clinical_findings := []
      drug_responses := []
      trait_associations := []
      summary :=
        { total_variants := variant_count
          analyzed_variants := 0
          clinical_count := 0
          drug_count := 0
          trait_count := 0
          actionable_findings := 0 } }

/-- `DatabaseInfo` (commands.rs:82-87). -/
structure DatabaseInfo where
  loaded : Bool
  record_count : Nat
  last_updated : Option String

/-- `DatabaseStatus` (commands.rs:75-80): exactly the three tables
`clinvar`, `pharmgkb`, `gwas`. -/
structure DatabaseStatus where
  clinvar : DatabaseInfo
  pharmgkb : DatabaseInfo
  gwas : DatabaseInfo

/-- `get_database_status` (commands.rs:182-202): placeholder constant —
every table unloaded with zero records and no update timestamp. -/
def get_database_status : DatabaseStatus :=
  { clinvar := { loaded := false, record_count := 0, last_updated := none }
    pharmgkb := { loaded := false, record_count := 0, last_updated := none }
    gwas := { loaded := false, record_count := 0, last_updated := none } }

/-- Claim C1: the spec requires a `.txt` file whose first line is a VCF
`#CHROM` header to be classified as VCF by content signature; the source's
`detect_file_type` never reads the file, so every `.txt` file — whatever
its content, including a `#CHROM` header line — is classified `23andme`. -/
theorem detect_file_type_txt_ignores_content :
    (∀ ls : List String,
      detect_file_type_file { name := "genome.txt", lines := ls, fileExists := true } =
        Except.ok "23andme") ∧
    detect_file_type_file
      { name := "genome.txt",
        lines := ["#CHROM\tPOS\tID\tREF\tALT\tQUAL\tFILTER\tINFO"],
        fileExists := true } = Except.ok "23andme" :=
  ⟨fun _ => rfl, rfl⟩

/-- Claim C2: the spec forbids classifying an ambiguous `.txt` or `.gz`
file without a matching content signature; the source classifies every
`.txt` file as `23andme` and every `.gz` file whose stem does not end in
`.vcf` as `23andme`, regardless of content — a silent guess. -/
theorem detect_file_type_guesses_without_signature :
    (∀ ls : List String,
      detect_file_type_file { name := "data.txt", lines := ls, fileExists := true } =
        Except.ok "23andme") ∧
    detect_file_type_file
      { name := "data.txt", lines := ["this line matches no genotype signature"],
        fileExists := true } = Except.ok "23andme" ∧
    detect_file_type_file
      { name := "data.gz", lines := ["this line matches no genotype signature"],
        fileExists := true } = Except.ok "23andme" :=
  ⟨fun _ => rfl, rfl, rfl⟩

/-- Claim C3: the spec requires matching against an unloaded Reference
Database to fail with `DatabaseNotLoaded`; the source reports every table
as unloaded (`get_database_status`) yet `analyze_variants` returns `Ok`
with empty finding lists — success with no findings, not an error. -/
theorem analyze_variants_succeeds_with_unloaded_database :
    get_database_status.clinvar.loaded = false ∧
    get_database_status.pharmgkb.loaded = false ∧
    get_database_status.gwas.loaded = false ∧
    analyze_variants 0 = Except.ok
      { clinical_findings := [], drug_responses := [], trait_associations := [],
        summary := { total_variants := 0, analyzed_variants := 0, clinical_count := 0,
                     drug_count := 0, trait_count := 0, actionable_findings := 0 } } :=
  ⟨rfl, rfl, rfl, rfl⟩

/-- Claim C4: the placeholder behavior the spec attributes to the source —
every successful parse has `success = true` and `variant_count = 0`, and
`analyze_variants` returns empty `clinical_findings`, `drug_responses` and
`trait_associations` for every input count. -/
theorem parse_and_analyze_placeholder :
    (∀ f r, parse_genome_file f = Except.ok r → r.success = true ∧ r.variant_count = 0) ∧
    (∀ n : Nat, analyze_variants n = Except.ok
      { clinical_findings := [], drug_responses := [], trait_associations := [],
        summary := { total_variants := n, analyzed_variants := 0, clinical_count := 0,
                     drug_count := 0, trait_count := 0, actionable_findings := 0 } }) := by
  constructor
  · intro f r h
    unfold parse_genome_file at h
    split at h
    · simp at h
    · cases hd : detect_file_type f.name with
      | error e => rw [hd] at h; simp at h
      | ok ft =>
        rw [hd] at h
        simp only [Except.ok.injEq] at h
        subst h
        exact ⟨rfl, rfl⟩
  · intro n
    rfl

/-- Witness for C4 at a concrete existing `.vcf` file and at count 7. -/
theorem parse_and_analyze_placeholder_witness :
    ParseResult.success { success := true, variant_count := 0, file_type := "vcf", error := none }
        = true ∧
    ParseResult.variant_count
        { success := true, variant_count := 0, file_type := "vcf", error := none } = 0 :=
  parse_and_analyze_placeholder.1 { name := "a.vcf", lines := [], fileExists := true }
    { success := true, variant_count := 0, file_type := "vcf", error := none } rfl

/-- Claim C5: the spec requires
`total_variants = analyzed_variants + (no-rsid count) + (zero-match count)`;
the source's `analyze_variants` tracks no variants at all (both unmatched
counts are necessarily 0) yet echoes the input count as `total_variants`
with `analyzed_variants = 0`, so at input 1 the accounting fails:
`total_variants = 1` but `analyzed_variants + 0 + 0 = 0`. -/
theorem analyze_variants_accounting_fails :
    analyze_variants 1 = Except.ok
      { clinical_findings := [], drug_responses := [], trait_associations := [],
        summary := { total_variants := 1, analyzed_variants := 0, clinical_count := 0,
                     drug_count := 0, trait_count := 0, actionable_findings := 0 } } ∧
    ¬ ((1 : Nat) = 0 + 0 + 0) :=
  ⟨rfl, by decide⟩

/-- Claim C6, counterexample: the claim says gzip-compressed variants map
to the same tags and the extension comparison is case-insensitive, but the
inner stem check for `.gz` files is the case-sensitive
`stem.ends_with(".vcf")`: `data.VCF` classifies as `vcf` while its
gzip-compressed variant `data.VCF.gz` classifies as `23andme`
(lower-case `data.vcf.gz` does classify as `vcf`). -/
theorem detect_file_type_gz_case_counterexample :
    detect_file_type "data.VCF" = Except.ok "vcf" ∧
    detect_file_type "data.vcf.gz" = Except.ok "vcf" ∧
    detect_file_type "data.VCF.gz" = Except.ok "23andme" :=
  ⟨rfl, rfl, rfl⟩

/-- Claim C6, amended: every successful classification returns exactly
`vcf` or `23andme`, and the outer extension comparison is case-insensitive
(classification is a function of the lowercased extension, the stem held
fixed); the inner `.vcf` stem check for `.gz` files remains
case-sensitive. -/
theorem detect_file_type_tags_and_outer_case :
    (∀ name r, detect_file_type name = Except.ok r → r = "vcf" ∨ r = "23andme") ∧
    (∀ e₁ e₂ s, lowerString e₁ = lowerString e₂ → classifyExt e₁ s = classifyExt e₂ s) := by
  constructor
  · intro name r h
    unfold detect_file_type classifyExt at h
    split_ifs at h <;> simp_all
  · intro e₁ e₂ s h
    unfold classifyExt
    rw [h]

/-- Witness for the amended C6: a successful classification of `data.vcf`
yields an admissible tag, and `VCF` and `vcf` extensions classify alike. -/
theorem detect_file_type_tags_and_outer_case_witness :
    ("vcf" = "vcf" ∨ "vcf" = "23andme") ∧ classifyExt "VCF" "x" = classifyExt "vcf" "x" :=
  ⟨detect_file_type_tags_and_outer_case.1 "data.vcf" "vcf" rfl,
   detect_file_type_tags_and_outer_case.2 "VCF" "vcf" "x" rfl⟩

/-- Claim C7: format detection and analysis are deterministic pure
functions of their input — two invocations on the same input are equal. -/
theorem detect_and_analyze_deterministic :
    (∀ f : GenomeFile, detect_file_type_file f = detect_file_type_file f) ∧
    (∀ n : Nat, analyze_variants n = analyze_variants n) :=
  ⟨fun _ => rfl, fun _ => rfl⟩

/-- Claim C8: the spec requires a variant-bearing value with `chromosome`
set but `position` absent to be rejected at construction; the source's
`ClinicalFinding` is a plain record with no validating constructor, so
such a value is constructible and silently accepted. -/
theorem clinical_finding_invariant_not_enforced :
    (ClinicalFinding.chromosome
      { rsid := "rs123", gene := none, condition := "X", significance := "pathogenic",
        chromosome := some "1", position := none }).isSome = true ∧
    ClinicalFinding.position
      { rsid := "rs123", gene := none, condition := "X", significance := "pathogenic",
        chromosome := some "1", position := none } = none :=
  ⟨rfl, rfl⟩

/-- Claim C9: a missing file yields exactly the error `"File not found"`
(independent of the name and content, so before any format detection), and
for an existing file `parse_genome_file` fails exactly when
`detect_file_type` fails. -/
theorem parse_genome_file_error_behavior :
    (∀ f : GenomeFile, f.fileExists = false →
      parse_genome_file f = Except.error "File not found") ∧
    (∀ f : GenomeFile, f.fileExists = true →
      ((∃ e, parse_genome_file f = Except.error e) ↔
        ∃ e, detect_file_type f.name = Except.error e)) := by
  constructor
  · intro f h
    simp [parse_genome_file, h]
  · intro f h
    simp only [parse_genome_file, h, Bool.true_eq_false, if_false]
    cases hd : detect_file_type f.name with
    | error e => simp
    | ok ft => simp

/-- Witness for C9: a concrete missing file and a concrete existing file
with an unsupported extension. -/
theorem parse_genome_file_error_behavior_witness :
    parse_genome_file { name := "genome.dat", lines := [], fileExists := false } =
      Except.error "File not found" ∧
    ((∃ e, parse_genome_file { name := "data.bin", lines := [], fileExists := true } =
        Except.error e) ↔
      ∃ e, detect_file_type "data.bin" = Except.error e) :=
  ⟨parse_genome_file_error_behavior.1
      { name := "genome.dat", lines := [], fileExists := false } rfl,
   parse_genome_file_error_behavior.2
      { name := "data.bin", lines := [], fileExists := true } rfl⟩

/-- Claim C10: `get_database_status` reports exactly the three tables
`clinvar`, `pharmgkb`, `gwas` (the fields of `DatabaseStatus`), and each
is internally consistent — `loaded = false` with `record_count = 0` and
`last_updated` absent. -/
theorem get_database_status_three_tables_consistent :
    get_database_status.clinvar.loaded = false ∧
    get_database_status.clinvar.record_count = 0 ∧
    get_database_status.clinvar.last_updated = none ∧
    get_database_status.pharmgkb.loaded = false ∧
    get_database_status.pharmgkb.record_count = 0 ∧
    get_database_status.pharmgkb.last_updated = none ∧
    get_database_status.gwas.loaded = false ∧
    get_database_status.gwas.record_count = 0 ∧
    get_database_status.gwas.last_updated = none :=
  ⟨rfl, rfl, rfl, rfl, rfl, rfl, rfl, rfl, rfl⟩

end GenomeForge
